import Mathlib

/-!
Verification of igdl-api (src/app.py) against its natural-language
specification.  Each Python function relevant to the claims is shallowly
embedded as an executable Lean definition; the theorems below settle the
frozen claims C1..C10 against those definitions.

Conventions:
* Wall-clock instants are natural numbers of seconds (the Python code uses
  `datetime` values; only differences and comparisons matter).
* File-modification timestamps in the cleanup sweep are rationals of POSIX
  seconds (the Python code divides a float difference by 3600).
* The filesystem, the yt-dlp engine, and `uuid.uuid4()` are external inputs
  and appear as explicit parameters.
-/

/-! ## Rate limiter (src/app.py, `check_rate_limit`, lines 96-113) -/

/-- `RATE_LIMIT_PER_HOUR = 50` (src/app.py line 24). -/
def RATE_LIMIT_PER_HOUR : Nat := 50

/-- `timedelta(hours=1)` expressed in seconds. -/
def HOUR_SECONDS : Nat := 3600

theorem RATE_LIMIT_PER_HOUR_eq : RATE_LIMIT_PER_HOUR = 50 := rfl

theorem HOUR_SECONDS_eq : HOUR_SECONDS = 3600 := rfl

/-- The pruning step of `check_rate_limit` (lines 104-107): keep entries with
`current_time - timestamp < timedelta(hours=1)`.  With `Nat` subtraction a
timestamp later than `now` truncates to `0 < HOUR_SECONDS` and is kept,
matching Python where a negative `timedelta` also compares `< 1h`. -/
def pruneEntries (now : Nat) (l : List Nat) : List Nat :=
  l.filter (fun t => decide (now - t < HOUR_SECONDS))

/-- `check_rate_limit` (lines 96-113) for a single client: the stored
timestamp list is pruned, then either the check is rejected (leaving the
pruned list in the tracker) or `now` is appended and the check is admitted.
Returns (admitted?, new stored list). -/
def check_rate_limit (now : Nat) (l : List Nat) : Bool × List Nat :=
  let pruned := pruneEntries now l
  if RATE_LIMIT_PER_HOUR ≤ pruned.length then (false, pruned)
  else (true, pruned ++ [now])

/-- Run a sequence of admission checks (one call per listed instant) for one
client, starting from stored list `l`; returns the admission results in order
and the final stored list. -/
def runChecks : List Nat → List Nat → List Bool × List Nat
  | [], l => ([], l)
  | t :: ts, l =>
    let r := check_rate_limit t l
    let rest := runChecks ts r.2
    (r.1 :: rest.1, rest.2)

theorem pruneEntries_eq_self (now : Nat) (l : List Nat)
    (h : ∀ t ∈ l, now < t + HOUR_SECONDS) : pruneEntries now l = l := by
  apply List.filter_eq_self.mpr
  intro a ha
  have ha2 := h a ha
  simp only [decide_eq_true_eq]
  simp only [HOUR_SECONDS_eq] at ha2 ⊢
  omega

theorem runChecks_all_admitted (t0 : Nat) (ts l : List Nat)
    (hts : ∀ t ∈ ts, t0 ≤ t ∧ t < t0 + HOUR_SECONDS)
    (hl : ∀ t ∈ l, t0 ≤ t ∧ t < t0 + HOUR_SECONDS)
    (hlen : l.length + ts.length ≤ RATE_LIMIT_PER_HOUR) :
    runChecks ts l = (List.replicate ts.length true, l ++ ts) := by
  induction ts generalizing l with
  | nil => simp [runChecks]
  | cons c cs ih =>
    have hwin : ∀ x ∈ l, c < x + HOUR_SECONDS := by
      intro x hx
      have h1 := (hts c (by simp)).2
      have h2 := (hl x hx).1
      omega
    have hprune : pruneEntries c l = l := pruneEntries_eq_self c l hwin
    have hlt : ¬ RATE_LIMIT_PER_HOUR ≤ l.length := by
      simp only [List.length_cons] at hlen; omega
    have hstep : check_rate_limit c l = (true, l ++ [c]) := by
      simp [check_rate_limit, hprune, hlt]
    have hrec := ih (l ++ [c])
      (fun x hx => hts x (List.mem_cons_of_mem c hx))
      (by
        intro x hx
        rcases List.mem_append.mp hx with hxl | hxc
        · exact hl x hxl
        · have hxe : x = c := by simpa using hxc
          exact hxe ▸ hts c (by simp))
      (by simp only [List.length_append, List.length_cons,
            List.length_nil] at hlen ⊢; omega)
    simp [runChecks, hstep, hrec, List.replicate_succ, List.append_assoc]

theorem runChecks_append (xs ys l : List Nat) :
    runChecks (xs ++ ys) l =
      ((runChecks xs l).1 ++ (runChecks ys (runChecks xs l).2).1,
       (runChecks ys (runChecks xs l).2).2) := by
  induction xs generalizing l with
  | nil => simp [runChecks]
  | cons x xs ih => simp [runChecks, ih]

/-- Claim C1: sliding-window rate limiting with limit 50 and window 1 hour:
for any client starting with an empty record, 51 admission calls whose
instants all lie inside one window of length 1 hour yield `true` for the
1st through 50th call and `false` for the 51st; a further call made at least
one hour after the first instant is admitted again. -/
theorem C1_sliding_window (ts : List Nat) (t0 tnext : Nat)
    (hlen : ts.length = 51)
    (hwin : ∀ t ∈ ts, t0 ≤ t ∧ t < t0 + HOUR_SECONDS)
    (hfirst : ts.head? = some t0)
    (hnext : t0 + HOUR_SECONDS ≤ tnext) :
    (runChecks ts []).1 = List.replicate 50 true ++ [false] ∧
    (check_rate_limit tnext (runChecks ts []).2).1 = true := by
  cases ts with
  | nil => simp at hlen
  | cons a tl =>
    have ha : t0 = a := by
      have h := hfirst
      simp only [List.head?_cons, Option.some.injEq] at h
      exact h.symm
    subst ha
    have htl : tl.length = 50 := by simpa using hlen
    -- split the 51 calls into the first 50 and the last one
    have hsplit : t0 :: tl = (t0 :: tl.take 49) ++ tl.drop 49 := by
      simp [List.take_append_drop]
    have hdlen : (tl.drop 49).length = 1 := by simp [htl]
    obtain ⟨t51, ht51⟩ := List.length_eq_one.mp hdlen
    have hAmem : ∀ t ∈ t0 :: tl.take 49, t0 ≤ t ∧ t < t0 + HOUR_SECONDS := by
      intro t ht
      rcases List.mem_cons.mp ht with hh | hh
      · exact hh ▸ hwin t0 (by simp)
      · exact hwin t (List.mem_cons_of_mem t0 (List.take_subset 49 tl hh))
    have hAlen : (t0 :: tl.take 49).length = 50 := by
      simp [List.length_take, htl]
    have hfirst50 : runChecks (t0 :: tl.take 49) [] =
        (List.replicate 50 true, [] ++ (t0 :: tl.take 49)) := by
      have h := runChecks_all_admitted t0 (t0 :: tl.take 49) [] hAmem
        (by intro t ht; simp at ht)
        (by simp [hAlen, RATE_LIMIT_PER_HOUR_eq])
      rw [h, hAlen]
    have ht51mem : t0 ≤ t51 ∧ t51 < t0 + HOUR_SECONDS := by
      apply hwin
      have hmem : t51 ∈ tl.drop 49 := by simp [ht51]
      exact List.mem_cons_of_mem t0 (List.drop_subset 49 tl hmem)
    have hstate_win : ∀ x ∈ t0 :: tl.take 49, t51 < x + HOUR_SECONDS := by
      intro x hx
      have h1 := (hAmem x hx).1
      have h2 := ht51mem.2
      omega
    have hprune51 : pruneEntries t51 (t0 :: tl.take 49) = t0 :: tl.take 49 :=
      pruneEntries_eq_self _ _ hstate_win
    have hlast : check_rate_limit t51 (t0 :: tl.take 49) =
        (false, t0 :: tl.take 49) := by
      simp [check_rate_limit, hprune51, hAlen, RATE_LIMIT_PER_HOUR_eq]
    have hall : runChecks (t0 :: tl) [] =
        (List.replicate 50 true ++ [false], t0 :: tl.take 49) := by
      rw [hsplit, runChecks_append, hfirst50, ht51]
      simp [runChecks, hlast]
    refine ⟨by rw [hall], ?_⟩
    -- the call at `tnext` prunes away `t0`, so at most 49 entries remain
    rw [hall]
    have hdrop : pruneEntries tnext (t0 :: tl.take 49) =
        pruneEntries tnext (tl.take 49) := by
      simp only [pruneEntries, List.filter_cons]
      have hout : ¬ (tnext - t0 < HOUR_SECONDS) := by
        simp only [HOUR_SECONDS_eq] at hnext ⊢; omega
      simp [hout]
    have hshort : (pruneEntries tnext (tl.take 49)).length ≤ 49 := by
      calc (pruneEntries tnext (tl.take 49)).length
          ≤ (tl.take 49).length := List.length_filter_le _ _
        _ ≤ 49 := by simp [List.length_take]
    have hok : ¬ RATE_LIMIT_PER_HOUR ≤
        (pruneEntries tnext (t0 :: tl.take 49)).length := by
      rw [hdrop, RATE_LIMIT_PER_HOUR_eq]
      omega
    simp [check_rate_limit, hok]

/-- Witness for C1 at a concrete input: 51 calls at instant 0 and a further
call at instant 3600. -/
theorem C1_sliding_window_witness :
    (runChecks (List.replicate 51 0) []).1 = List.replicate 50 true ++ [false] ∧
    (check_rate_limit 3600 (runChecks (List.replicate 51 0) []).2).1 = true :=
  C1_sliding_window (List.replicate 51 0) 0 3600 (by decide)
    (by decide) (by decide) (by decide)

/-- Claim C9: after any admission check for a client whose stored timestamps
all precede the check instant, the stored sequence contains only timestamps
inside the trailing one-hour window ending at the check instant, and after a
successful admission its length never exceeds the limit 50. -/
theorem C9_raterecord_invariant (now : Nat) (l : List Nat)
    (hpast : ∀ t ∈ l, t ≤ now) :
    (∀ t ∈ (check_rate_limit now l).2, t ≤ now ∧ now - t < HOUR_SECONDS) ∧
    ((check_rate_limit now l).1 = true →
      (check_rate_limit now l).2.length ≤ RATE_LIMIT_PER_HOUR) := by
  unfold check_rate_limit
  by_cases h : RATE_LIMIT_PER_HOUR ≤ (pruneEntries now l).length
  · simp only [h, if_pos]
    refine ⟨?_, by intro hfalse; simp at hfalse⟩
    intro t ht
    have hm := List.mem_filter.mp ht
    exact ⟨hpast t hm.1, of_decide_eq_true hm.2⟩
  · simp only [h, if_neg, not_false_iff]
    constructor
    · intro t ht
      rcases List.mem_append.mp ht with hm | hm
      · have hmf := List.mem_filter.mp hm
        exact ⟨hpast t hmf.1, of_decide_eq_true hmf.2⟩
      · have hte : t = now := by simpa using hm
        subst hte
        exact ⟨le_refl t, by simp [HOUR_SECONDS_eq]⟩
    · intro _
      simp only [List.length_append, List.length_cons, List.length_nil]
      omega

/-- Witness for C9 at a concrete input, instantiated at the stored
timestamp 5 and with the admission outcome discharged. -/
theorem C9_raterecord_invariant_witness :
    (5 ≤ 10 ∧ 10 - 5 < HOUR_SECONDS) ∧
    (check_rate_limit 10 [5]).2.length ≤ RATE_LIMIT_PER_HOUR :=
  ⟨(C9_raterecord_invariant 10 [5] (by decide)).1 5 (by decide),
   (C9_raterecord_invariant 10 [5] (by decide)).2 (by decide)⟩

/-! ## Cleanup sweep (src/app.py, `cleanup_old_files`, lines 115-136) -/

/-- `MAX_FILE_AGE_HOURS = 1` (src/app.py line 22). -/
def MAX_FILE_AGE_HOURS : ℚ := 1

/-- A file of the download folder, identified by its name and its
modification timestamp (POSIX seconds). -/
structure StoredFile where
  name : String
  mtime : ℚ
deriving DecidableEq

/-- `file_age_hours = (current_time - os.path.getmtime(file_path)) / 3600`
(line 124). -/
def file_age_hours (now : ℚ) (f : StoredFile) : ℚ :=
  (now - f.mtime) / 3600

/-- `cleanup_old_files` (lines 115-136): files with
`file_age_hours > MAX_FILE_AGE_HOURS` are removed; the others survive.
The result is the download folder content after the sweep. -/
def cleanup_old_files (now : ℚ) (store : List StoredFile) : List StoredFile :=
  store.filter (fun f => decide (¬ file_age_hours now f > MAX_FILE_AGE_HOURS))

/-- Claim C6: a stored file survives a sweep 59 minutes after its creation,
is removed by a sweep 61 minutes after its creation, and in general a sweep
removes it exactly when its age exceeds the 1-hour TTL. -/
theorem C6_ttl_eviction (store : List StoredFile) (f : StoredFile)
    (hf : f ∈ store) :
    f ∈ cleanup_old_files (f.mtime + 59 * 60) store ∧
    f ∉ cleanup_old_files (f.mtime + 61 * 60) store ∧
    (∀ now : ℚ,
      (f ∉ cleanup_old_files now store ↔
        file_age_hours now f > MAX_FILE_AGE_HOURS)) := by
  have hmem : ∀ now : ℚ, f ∈ cleanup_old_files now store ↔
      ¬ file_age_hours now f > MAX_FILE_AGE_HOURS := by
    intro now
    simp [cleanup_old_files, List.mem_filter, hf]
  refine ⟨?_, ?_, ?_⟩
  · rw [hmem]
    simp only [file_age_hours, MAX_FILE_AGE_HOURS]
    rw [not_lt]
    have : f.mtime + 59 * 60 - f.mtime = 3540 := by ring
    rw [this]
    norm_num
  · rw [hmem]
    simp only [file_age_hours, MAX_FILE_AGE_HOURS, not_not]
    have : f.mtime + 61 * 60 - f.mtime = 3660 := by ring
    rw [this]
    norm_num
  · intro now
    rw [hmem]
    exact not_not

/-- Witness for C6 at a concrete input. -/
theorem C6_ttl_eviction_witness :
    (⟨"clip.mp4", 0⟩ : StoredFile) ∈
      cleanup_old_files ((⟨"clip.mp4", 0⟩ : StoredFile).mtime + 59 * 60)
        [⟨"clip.mp4", 0⟩] ∧
    (⟨"clip.mp4", 0⟩ : StoredFile) ∉
      cleanup_old_files ((⟨"clip.mp4", 0⟩ : StoredFile).mtime + 61 * 60)
        [⟨"clip.mp4", 0⟩] :=
  ⟨(C6_ttl_eviction [⟨"clip.mp4", 0⟩] ⟨"clip.mp4", 0⟩ (by simp)).1,
   (C6_ttl_eviction [⟨"clip.mp4", 0⟩] ⟨"clip.mp4", 0⟩ (by simp)).2.1⟩

/-! ## Filenames and download aggregation
(src/app.py, `sanitize_filename` lines 88-94 and `download_media_ytdlp`
lines 333-429) -/

/-- Python substring test `needle in hay` on character lists. -/
def charsInfix : List Char → List Char → Bool
  | n, [] => n.isEmpty
  | n, c :: rest => n.isPrefixOf (c :: rest) || charsInfix n rest

/-- Python `needle in hay` for strings. -/
def pyIn (needle hay : String) : Bool :=
  charsInfix needle.toList hay.toList

/-- Python `s.startswith(p)`. -/
def pyStartswith (s p : String) : Bool :=
  p.toList.isPrefixOf s.toList

/-- Python `s.endswith(p)`. -/
def pyEndswith (s p : String) : Bool :=
  p.toList.reverse.isPrefixOf s.toList.reverse

/-- Python `s.endswith(tuple)`: any of the listed suffixes. -/
def pyEndswithAny (s : String) (sufs : List String) : Bool :=
  sufs.any (fun suf => pyEndswith s suf)

/-- Index of the last occurrence of `c` in `cs`, if any. -/
def lastIndexOfChar (c : Char) (cs : List Char) : Option Nat :=
  ((List.range cs.length).filter (fun i => cs.getD i c == c)).getLast?

/-- `os.path.splitext` restricted to plain basenames (the inputs here contain
no path separators): split at the last dot, unless every character before
that dot is itself a dot (leading dots carry no extension). -/
def splitext (s : String) : String × String :=
  let cs := s.toList
  match lastIndexOfChar '.' cs with
  | none => (s, "")
  | some i =>
    if (cs.take i).all (fun c => c == '.') then (s, "")
    else (String.mk (cs.take i), String.mk (cs.drop i))

/-- The characters of `keepchars` in `sanitize_filename` (line 90). -/
def keepchars : List Char := [' ', '.', '_', '-']

/-- `sanitize_filename` (lines 88-94).  Python draws the 8-character unique
id from `uuid.uuid4()`; here it is the explicit argument `uid`.  Python
`str.isalnum` is applied to ASCII data, modelled by `Char.isAlphanum`;
`str.rstrip()` strips trailing whitespace. -/
def sanitize_filename (filename uid : String) : String :=
  let filtered := filename.toList.filter
    (fun c => c.isAlphanum || keepchars.contains c)
  let stripped := (filtered.reverse.dropWhile Char.isWhitespace).reverse
  let ne := splitext (String.mk stripped)
  ne.1 ++ "_" ++ uid ++ ne.2

/-- `MAX_FILE_SIZE_MB = 100` (src/app.py line 23), converted to bytes as in
line 370 (`MAX_FILE_SIZE_MB * 1024 * 1024`). -/
def MAX_FILE_SIZE_BYTES : Nat := 100 * 1024 * 1024

/-- A file found in the extraction temp directory: basename and byte size. -/
structure RawFile where
  path : String
  size : Nat
deriving DecidableEq

/-- One entry of the `results` list built in lines 380-387. -/
structure ResultFile where
  filename : String
  file_size : Nat
  ftype : String
  download_url : String
  original_name : String
deriving DecidableEq

/-- The success payload of `download_media_ytdlp` (lines 396-410); the
metadata fields (title, uploader, ...) coming from the extractor are not
modelled because no claim mentions them. -/
structure DLResult where
  rtype : String
  files : List ResultFile
  count : Nat
deriving DecidableEq

/-- Extension filter of the temp-directory walk (line 358). -/
def isMediaFile (f : RawFile) : Bool :=
  pyEndswithAny f.path [".mp4", ".jpg", ".jpeg", ".png", ".webp", ".mkv", ".avi"]

/-- The `downloaded_files` discovery loop (lines 355-359); `walked` is the
file list produced by `os.walk` of the temp directory, in walk order. -/
def discover_files (walked : List RawFile) : List RawFile :=
  walked.filter isMediaFile

/-- File-kind classification of line 378. -/
def file_type (path : String) : String :=
  if pyEndswithAny path [".mp4", ".mkv", ".avi"] then "video" else "image"

/-- The `results` entry built for one kept file (lines 374-387);
`uid` is the unique id consumed by its `sanitize_filename` call. -/
def mkEntry (f : RawFile) (uid : String) : ResultFile :=
  { filename := sanitize_filename f.path uid
    file_size := f.size
    ftype := file_type f.path
    download_url := "/download/" ++ sanitize_filename f.path uid
    original_name := f.path }

/-- The per-file processing loop of lines 365-387: oversized files are
skipped; each kept file consumes the next unique id `ids k`. -/
def process_files (ids : Nat → String) : List RawFile → Nat → List ResultFile
  | [], _ => []
  | f :: fs, k =>
    if MAX_FILE_SIZE_BYTES < f.size then process_files ids fs k
    else mkEntry f (ids k) :: process_files ids fs (k + 1)

/-- `download_media_ytdlp` (lines 333-429) after a successful engine run:
`walked` is the temp-directory content, `ids` the stream of unique ids.
Raised exceptions are modelled as `.error` with the exception message. -/
def download_media_ytdlp_model (walked : List RawFile) (ids : Nat → String) :
    Except String DLResult :=
  match discover_files walked with
  | [] => .error "No files downloaded"
  | d :: ds =>
    match process_files ids (d :: ds) 0 with
    | [] => .error "No valid files downloaded"
    | r :: rs =>
      .ok { rtype := if 1 < (r :: rs).length then "multiple" else r.ftype
            files := r :: rs
            count := (r :: rs).length }

theorem process_files_eq_filter (ids : Nat → String) :
    ∀ (l : List RawFile) (k : Nat),
      process_files ids l k =
        process_files ids
          (l.filter (fun f => decide (f.size ≤ MAX_FILE_SIZE_BYTES))) k := by
  intro l
  induction l with
  | nil => intro k; rfl
  | cons f fs ih =>
    intro k
    by_cases h : MAX_FILE_SIZE_BYTES < f.size
    · have hd : decide (f.size ≤ MAX_FILE_SIZE_BYTES) = false := by
        simp [Nat.not_le.mpr h]
      simp [process_files, h, List.filter_cons, hd, ih]
    · have hd : decide (f.size ≤ MAX_FILE_SIZE_BYTES) = true := by
        simp [Nat.not_lt.mp h]
      simp [process_files, h, List.filter_cons, hd, ih]

theorem process_files_sizes (ids : Nat → String) :
    ∀ (l : List RawFile) (k : Nat) (e : ResultFile),
      e ∈ process_files ids l k → e.file_size ≤ MAX_FILE_SIZE_BYTES := by
  intro l
  induction l with
  | nil => intro k e he; simp [process_files] at he
  | cons f fs ih =>
    intro k e he
    by_cases h : MAX_FILE_SIZE_BYTES < f.size
    · rw [process_files, if_pos h] at he
      exact ih _ _ he
    · rw [process_files, if_neg h] at he
      rcases List.mem_cons.mp he with hh | hh
      · rw [hh]
        exact Nat.not_lt.mp h
      · exact ih _ _ hh

theorem process_files_ne_nil (ids : Nat → String) :
    ∀ (l : List RawFile) (k : Nat) (f : RawFile),
      f ∈ l → f.size ≤ MAX_FILE_SIZE_BYTES → process_files ids l k ≠ [] := by
  intro l
  induction l with
  | nil => intro k f hf; simp at hf
  | cons g gs ih =>
    intro k f hf hsize
    by_cases h : MAX_FILE_SIZE_BYTES < g.size
    · rw [process_files, if_pos h]
      rcases List.mem_cons.mp hf with hh | hh
      · exact absurd (hh ▸ hsize) (Nat.not_le.mpr h)
      · exact ih _ f hh hsize
    · rw [process_files, if_neg h]
      simp

theorem download_model_cons (walked : List RawFile) (ids : Nat → String)
    (d : RawFile) (ds : List RawFile) (hd : discover_files walked = d :: ds) :
    download_media_ytdlp_model walked ids =
      match process_files ids (d :: ds) 0 with
      | [] => .error "No valid files downloaded"
      | r :: rs =>
        .ok { rtype := if 1 < (r :: rs).length then "multiple" else r.ftype
              files := r :: rs
              count := (r :: rs).length } := by
  unfold download_media_ytdlp_model
  rw [hd]

/-- Claim C5 (amended reading is not needed: the claim holds): every
produced file strictly larger than 100 MB is excluded, the request still
succeeds when at least one discovered file is within the limit (and then the
delivered entries are all within the limit), and when every discovered file
is oversized the operation fails with the "No valid files downloaded"
error. -/
theorem C5_oversize_filter (walked : List RawFile) (ids : Nat → String) :
    (∀ k, process_files ids (discover_files walked) k =
        process_files ids ((discover_files walked).filter
          (fun f => decide (f.size ≤ MAX_FILE_SIZE_BYTES))) k) ∧
    ((∃ f ∈ discover_files walked, f.size ≤ MAX_FILE_SIZE_BYTES) →
      ∃ r, download_media_ytdlp_model walked ids = .ok r ∧
        ∀ e ∈ r.files, e.file_size ≤ MAX_FILE_SIZE_BYTES) ∧
    (discover_files walked ≠ [] →
      (∀ f ∈ discover_files walked, MAX_FILE_SIZE_BYTES < f.size) →
      download_media_ytdlp_model walked ids = .error "No valid files downloaded") := by
  refine ⟨fun k => process_files_eq_filter ids _ k, ?_, ?_⟩
  · rintro ⟨f, hf, hsize⟩
    cases hd : discover_files walked with
    | nil => rw [hd] at hf; simp at hf
    | cons d ds =>
      rw [hd] at hf
      cases hp : process_files ids (d :: ds) 0 with
      | nil => exact absurd hp (process_files_ne_nil ids (d :: ds) 0 f hf hsize)
      | cons r rs =>
        refine ⟨{ rtype := if 1 < (r :: rs).length then "multiple" else r.ftype
                  files := r :: rs
                  count := (r :: rs).length }, ?_, ?_⟩
        · rw [download_model_cons walked ids d ds hd, hp]
        · intro e he
          refine process_files_sizes ids (d :: ds) 0 e ?_
          rw [hp]
          exact he
  · intro hne hall
    cases hd : discover_files walked with
    | nil => exact absurd hd hne
    | cons d ds =>
      have hfle : (d :: ds).filter
          (fun f => decide (f.size ≤ MAX_FILE_SIZE_BYTES)) = [] := by
        apply List.filter_eq_nil_iff.mpr
        intro a ha
        have := hall a (hd ▸ ha)
        simp only [decide_eq_true_eq]
        omega
      have hempty : process_files ids (d :: ds) 0 = [] := by
        rw [process_files_eq_filter ids (d :: ds) 0, hfle]
        rfl
      rw [download_model_cons walked ids d ds hd, hempty]

/-- Witness for C5: a single discovered 200 MB file yields the
"No valid files downloaded" error. -/
theorem C5_oversize_filter_witness :
    download_media_ytdlp_model [⟨"big.mp4", 200 * 1024 * 1024⟩]
        (fun _ => "00000000") = .error "No valid files downloaded" :=
  (C5_oversize_filter [⟨"big.mp4", 200 * 1024 * 1024⟩] (fun _ => "00000000")).2.2
    (by decide) (by decide)

/-- Counterexample to claim C2: three valid downloaded files do not yield a
single archive artifact with entries `item-01`, `item-02`, `item-03`; the
code instead delivers three separate file entries whose names are the
sanitized originals with a unique suffix. -/
theorem C2_counterexample :
    (download_media_ytdlp_model
        [⟨"a.mp4", 5⟩, ⟨"b.jpg", 5⟩, ⟨"c.jpg", 5⟩] (fun _ => "12345678")).map
        (fun r => (r.files.map (fun e => e.filename), r.count)) =
      .ok (["a_12345678.mp4", "b_12345678.jpg", "c_12345678.jpg"], 3) ∧
    (["a_12345678.mp4", "b_12345678.jpg", "c_12345678.jpg"] : List String) ≠
      ["item-01", "item-02", "item-03"] := by
  exact ⟨by rfl, by decide⟩

/-- Claim C2 as amended: with one valid file the delivered result wraps
exactly that file directly (count 1, type taken from the file); with three
valid files the delivered result is not an archive but three separate file
entries in extraction order, of type "multiple", each named by sanitizing
its original name with a fresh unique suffix. -/
theorem C2_aggregation_amended (ids : Nat → String) (f1 f2 f3 : RawFile)
    (h1 : isMediaFile f1 = true) (h2 : isMediaFile f2 = true)
    (h3 : isMediaFile f3 = true)
    (s1 : f1.size ≤ MAX_FILE_SIZE_BYTES) (s2 : f2.size ≤ MAX_FILE_SIZE_BYTES)
    (s3 : f3.size ≤ MAX_FILE_SIZE_BYTES) :
    download_media_ytdlp_model [f1] ids =
      .ok { rtype := file_type f1.path
            files := [mkEntry f1 (ids 0)]
            count := 1 } ∧
    download_media_ytdlp_model [f1, f2, f3] ids =
      .ok { rtype := "multiple"
            files := [mkEntry f1 (ids 0), mkEntry f2 (ids 1), mkEntry f3 (ids 2)]
            count := 3 } := by
  have n1 : ¬ MAX_FILE_SIZE_BYTES < f1.size := Nat.not_lt.mpr s1
  have n2 : ¬ MAX_FILE_SIZE_BYTES < f2.size := Nat.not_lt.mpr s2
  have n3 : ¬ MAX_FILE_SIZE_BYTES < f3.size := Nat.not_lt.mpr s3
  constructor
  · simp [download_media_ytdlp_model, discover_files, List.filter_cons,
      h1, process_files, n1, mkEntry]
  · simp [download_media_ytdlp_model, discover_files, List.filter_cons,
      h1, h2, h3, process_files, n1, n2, n3, mkEntry]

/-- Witness for the amended C2 at concrete inputs. -/
theorem C2_aggregation_amended_witness :
    download_media_ytdlp_model [⟨"a.mp4", 5⟩] (fun _ => "12345678") =
      .ok { rtype := file_type "a.mp4"
            files := [mkEntry ⟨"a.mp4", 5⟩ "12345678"]
            count := 1 } ∧
    download_media_ytdlp_model [⟨"a.mp4", 5⟩, ⟨"b.jpg", 5⟩, ⟨"c.jpg", 5⟩]
        (fun _ => "12345678") =
      .ok { rtype := "multiple"
            files := [mkEntry ⟨"a.mp4", 5⟩ "12345678",
                      mkEntry ⟨"b.jpg", 5⟩ "12345678",
                      mkEntry ⟨"c.jpg", 5⟩ "12345678"]
            count := 3 } :=
  C2_aggregation_amended (fun _ => "12345678") ⟨"a.mp4", 5⟩ ⟨"b.jpg", 5⟩
    ⟨"c.jpg", 5⟩ (by decide) (by decide) (by decide)
    (by decide) (by decide) (by decide)

/-! ## Credential resolver (src/app.py, `get_cookies_file_path`, lines 33-64) -/

/-- `COOKIES_FILE_PATHS` (lines 27-31), in priority order. -/
def COOKIES_FILE_PATHS : List String :=
  ["/etc/secrets/cookies.txt", "./cookies.txt", "/tmp/cookies.txt"]

/-- `writable_path = '/tmp/cookies.txt'` (line 35). -/
def writable_cookie_path : String := "/tmp/cookies.txt"

/-- Scan loop of `get_cookies_file_path` (lines 38-64).  The filesystem is
the map `fs` from path to `none` (missing) or `some size`; `copyOk` tells
whether the `shutil.copy2` staging copy succeeds.  A candidate under the
read-only `/etc/secrets/` area is copied to the writable path; on copy
failure the function returns `None` (line 53).  Candidates that exist but
are empty are skipped. -/
def resolve_cookies (fs : String → Option Nat) (copyOk : Bool) :
    List String → Option String
  | [] => none
  | p :: rest =>
    match fs p with
    | none => resolve_cookies fs copyOk rest
    | some size =>
      if 0 < size then
        if pyStartswith p "/etc/secrets/" then
          if copyOk then some writable_cookie_path else none
        else some p
      else resolve_cookies fs copyOk rest

/-- `get_cookies_file_path` (lines 33-64). -/
def get_cookies_file_path (fs : String → Option Nat) (copyOk : Bool) :
    Option String :=
  resolve_cookies fs copyOk COOKIES_FILE_PATHS

/-- Counterexample to claim C3: when the winning candidate is the read-only
`/etc/secrets/cookies.txt` and the staging copy fails, the resolver returns
`None` (unavailable) instead of falling back to the read-only path. -/
theorem C3_counterexample :
    get_cookies_file_path
        (fun p => if p = "/etc/secrets/cookies.txt" then some 5 else none)
        false = none ∧
    get_cookies_file_path
        (fun p => if p = "/etc/secrets/cookies.txt" then some 5 else none)
        false ≠ some "/etc/secrets/cookies.txt" := by
  exact ⟨by rfl, by decide⟩

/-- Claim C3 as amended: candidates are scanned in priority order and the
first existing candidate of non-zero size wins; a winner under the read-only
`/etc/secrets/` area is staged to `/tmp/cookies.txt` when the copy succeeds
and the resolver returns `None` (unavailable) when the copy fails; a winner
elsewhere is returned directly; when no candidate qualifies the resolver
returns `None` rather than raising an error. -/
theorem C3_credential_resolution_amended (fs : String → Option Nat)
    (copyOk : Bool) :
    ((∀ p ∈ COOKIES_FILE_PATHS, fs p = none ∨ fs p = some 0) →
      get_cookies_file_path fs copyOk = none) ∧
    (∀ s, fs "/etc/secrets/cookies.txt" = some s → 0 < s →
      get_cookies_file_path fs copyOk =
        if copyOk then some writable_cookie_path else none) ∧
    ((fs "/etc/secrets/cookies.txt" = none ∨
        fs "/etc/secrets/cookies.txt" = some 0) →
      (∃ s, fs "./cookies.txt" = some s ∧ 0 < s) →
      get_cookies_file_path fs copyOk = some "./cookies.txt") := by
  refine ⟨?_, ?_, ?_⟩
  · intro hall
    unfold get_cookies_file_path COOKIES_FILE_PATHS
    have h1 := hall "/etc/secrets/cookies.txt" (by simp [COOKIES_FILE_PATHS])
    have h2 := hall "./cookies.txt" (by simp [COOKIES_FILE_PATHS])
    have h3 := hall "/tmp/cookies.txt" (by simp [COOKIES_FILE_PATHS])
    rcases h1 with h1 | h1 <;> rcases h2 with h2 | h2 <;>
      rcases h3 with h3 | h3 <;>
      simp [resolve_cookies, h1, h2, h3]
  · intro s hs hpos
    unfold get_cookies_file_path COOKIES_FILE_PATHS
    have hpre : pyStartswith "/etc/secrets/cookies.txt" "/etc/secrets/" = true := by
      decide
    simp [resolve_cookies, hs, hpos, hpre]
  · intro h1 hq
    obtain ⟨s, hs, hpos⟩ := hq
    unfold get_cookies_file_path COOKIES_FILE_PATHS
    have hpre : pyStartswith "./cookies.txt" "/etc/secrets/" = false := by
      decide
    rcases h1 with h1 | h1 <;> simp [resolve_cookies, h1, hs, hpos, hpre]

/-- Witness for the amended C3: the read-only candidate qualifies and the
copy succeeds, so the staged writable path is returned. -/
theorem C3_credential_resolution_amended_witness :
    get_cookies_file_path
        (fun p => if p = "/etc/secrets/cookies.txt" then some 3 else none)
        true = some writable_cookie_path :=
  (C3_credential_resolution_amended
      (fun p => if p = "/etc/secrets/cookies.txt" then some 3 else none)
      true).2.1 3 (by decide) (by decide)

/-! ## Endpoints (src/app.py, `get_media_info` lines 620-659,
`download_media` lines 661-743, error handling lines 646-659 and 728-743) -/

/-- A single-quote character, for reproducing Python error text. -/
def squote : String := String.singleton (Char.ofNat 39)

/-- Python `s.lower()` on ASCII data. -/
def pyLower (s : String) : String := String.mk (s.toList.map Char.toLower)

/-- Error classification of the `/api/media/info` handler (lines 646-659):
substring tests on the (lowercased) exception message pick the status code
and the fixed user-facing message.  Note the `'404' in error_msg` test is on
the original, non-lowercased message, as in line 652. -/
def classify_info_error (msg : String) : Nat × String :=
  if pyIn "private" (pyLower msg) || pyIn "login" (pyLower msg) then
    (401, "This content is private or requires authentication")
  else if pyIn "not found" (pyLower msg) || pyIn "404" msg then
    (404, "Media not found")
  else if pyIn "rate limit" (pyLower msg) then
    (429, "Rate limit exceeded. Please try again later.")
  else if pyIn "not supported" (pyLower msg) then
    (400, "This post format is not supported. Try a different post.")
  else (500, "Failed to fetch media information")

/-- Error classification of the `/api/download` handler (lines 728-743). -/
def classify_download_error (msg : String) : Nat × String :=
  if pyIn "private" (pyLower msg) || pyIn "login" (pyLower msg) then
    (401, "This content is private")
  else if pyIn "not found" (pyLower msg) then
    (404, "Media not found")
  else if pyIn "timeout" (pyLower msg) then
    (504, "Request timed out")
  else if pyIn "not supported" (pyLower msg) then
    (400, "This post format is not supported")
  else if pyIn "rate limit" (pyLower msg) then
    (429, "Rate limit exceeded. Please try again later.")
  else (500, "Download failed")

/-- A JSON value usable as `item_index`: an integer, a general number, or a
string.  (`null` is indistinguishable from an absent key through
`data.get`, so it is modelled as absence.) -/
inductive JIdx
  | jint (n : Int)
  | jnum (q : ℚ)
  | jstr (s : String)
deriving DecidableEq

/-- Parse the digit block of a Python `int()` literal. -/
def parseDigits : List Char → Option Nat
  | [] => none
  | cs =>
    if cs.all Char.isDigit then
      some (cs.foldl (fun a c => a * 10 + (c.toNat - 48)) 0)
    else none

/-- Python `int()` applied to a string: optional surrounding whitespace and
sign followed by digits (digit-group underscores are not modelled; no claim
involves them). -/
def pyIntOfString (s : String) : Option Int :=
  let t := s.toList.dropWhile Char.isWhitespace
  let t2 := (t.reverse.dropWhile Char.isWhitespace).reverse
  match t2 with
  | '+' :: rest => (parseDigits rest).map Int.ofNat
  | '-' :: rest => (parseDigits rest).map (fun n => -(n : Int))
  | rest => (parseDigits rest).map Int.ofNat

/-- Python `int()` applied to a float (here an exact rational): truncation
toward zero. -/
def pyTrunc (q : ℚ) : Int := Int.tdiv q.num q.den

/-- The message of the `ValueError` raised by `int()` on a bad string. -/
def int_error_msg (s : String) : String :=
  "invalid literal for int() with base 10: " ++ squote ++ s ++ squote

/-- Observable effects of a request handler, in execution order. -/
inductive Ev
  | rateCheck
  | extract
deriving DecidableEq

/-- The body of a `/api/download` request, as read in lines 677-686. -/
structure ReqBody where
  url : Option String
  item_index : Option JIdx

/-- The JSON answer of the `/api/download` handler, reduced to the fields
the claims mention, together with the effect trace and the rate tracker
state after the request.  `message` is empty on success. -/
structure RouteOut where
  events : List Ev
  status : Nat
  message : String
  files : List ResultFile
  count : Nat
  tracker : List Nat
deriving DecidableEq

/-- Placeholder entry for the (unreachable) out-of-range list access. -/
def emptyResultFile : ResultFile := ⟨"", 0, "", "", ""⟩

/-- Item selection of lines 695-712: applied only when the converted index
is in range; otherwise the full result is returned (lines 714-726). -/
def select_item (result : DLResult) (n : Int) (tr : List Nat) : RouteOut :=
  if 0 ≤ n ∧ n < (result.files.length : Int) then
    { events := [Ev.rateCheck, Ev.extract], status := 200, message := ""
      files := [result.files.getD n.toNat emptyResultFile], count := 1
      tracker := tr }
  else
    { events := [Ev.rateCheck, Ev.extract], status := 200, message := ""
      files := result.files, count := result.count, tracker := tr }

/-- `download_media` (lines 661-743).  `urlValid` stands for
`is_valid_instagram_url` (its regular expressions are not modelled; no claim
depends on them), `engine` for the outcome of `download_media_ytdlp`, and
`now`/`tracker` feed `check_rate_limit` for the requesting client. -/
def download_media_route (isOptions : Bool) (now : Nat) (tracker : List Nat)
    (urlValid : String → Bool) (body : Option ReqBody)
    (engine : Except String DLResult) : RouteOut :=
  if isOptions then ⟨[], 200, "", [], 0, tracker⟩
  else
    let rl := check_rate_limit now tracker
    if rl.1 = false then
      ⟨[Ev.rateCheck], 429, "Rate limit exceeded. Try again later.", [], 0, rl.2⟩
    else
      match body with
      | none => ⟨[Ev.rateCheck], 400, "URL is required", [], 0, rl.2⟩
      | some b =>
        match b.url with
        | none => ⟨[Ev.rateCheck], 400, "URL is required", [], 0, rl.2⟩
        | some url =>
          if urlValid url = false then
            ⟨[Ev.rateCheck], 400, "Invalid Instagram URL", [], 0, rl.2⟩
          else
            match engine with
            | .error msg =>
              let c := classify_download_error msg
              ⟨[Ev.rateCheck, Ev.extract], c.1, c.2, [], 0, rl.2⟩
            | .ok result =>
              match b.item_index with
              | none =>
                ⟨[Ev.rateCheck, Ev.extract], 200, "", result.files,
                  result.count, rl.2⟩
              | some jv =>
                if result.files.isEmpty then
                  ⟨[Ev.rateCheck, Ev.extract], 200, "", result.files,
                    result.count, rl.2⟩
                else
                  match jv with
                  | .jint n => select_item result n rl.2
                  | .jnum q => select_item result (pyTrunc q) rl.2
                  | .jstr s =>
                    match pyIntOfString s with
                    | some n => select_item result n rl.2
                    | none =>
                      let c := classify_download_error (int_error_msg s)
                      ⟨[Ev.rateCheck, Ev.extract], c.1, c.2, [], 0, rl.2⟩

/-- `get_media_info` (lines 620-659).  The handler performs no rate-limit
check; `engine` stands for the outcome of `get_media_info_ytdlp` (payload
irrelevant to the claims).  Result: effect trace, status code, message. -/
def get_media_info_route (isOptions : Bool) (urlValid : String → Bool)
    (body : Option (Option String)) (engine : Except String Unit) :
    List Ev × Nat × String :=
  if isOptions then ([], 200, "")
  else
    match body with
    | none => ([], 400, "URL is required")
    | some none => ([], 400, "URL is required")
    | some (some url) =>
      if urlValid url = false then
        ([], 400, "Invalid Instagram URL. Supported formats: Posts (instagram.com/p/...), Reels (instagram.com/reel/...), Stories (instagram.com/stories/...), TV (instagram.com/tv/...)")
      else
        match engine with
        | .ok _ => ([Ev.extract], 200, "")
        | .error msg =>
          let c := classify_info_error msg
          ([Ev.extract], c.1, c.2)

/-- Counterexample to claim C4: a plain POST to the media-info endpoint with
a valid body reaches extraction, yet no rate-limit admission check occurs
anywhere in the handler. -/
theorem C4_counterexample :
    (get_media_info_route false (fun _ => true)
        (some (some "https://www.instagram.com/p/abc123/")) (.ok ())).1 =
      [Ev.extract] ∧
    Ev.rateCheck ∉ (get_media_info_route false (fun _ => true)
        (some (some "https://www.instagram.com/p/abc123/")) (.ok ())).1 := by
  exact ⟨rfl, by decide⟩

theorem select_item_events (result : DLResult) (n : Int) (tr : List Nat) :
    (select_item result n tr).events = [Ev.rateCheck, Ev.extract] := by
  unfold select_item
  split <;> rfl

theorem download_route_events (now : Nat) (tracker : List Nat)
    (uv : String → Bool) (body : Option ReqBody)
    (eng : Except String DLResult) :
    (download_media_route false now tracker uv body eng).events =
      [Ev.rateCheck] ∨
    (download_media_route false now tracker uv body eng).events =
      [Ev.rateCheck, Ev.extract] := by
  unfold download_media_route
  simp only [Bool.false_eq_true, if_false]
  by_cases hrl : (check_rate_limit now tracker).1 = false
  · simp [hrl]
  · simp only [hrl, if_neg, not_false_iff, if_false]
    rcases body with _ | b
    · simp
    · rcases hurl : b.url with _ | url
      · simp [hurl]
      · simp only [hurl]
        by_cases huv : uv url = false
        · simp [huv]
        · simp only [huv, if_false]
          cases eng with
          | error msg => simp
          | ok result =>
            rcases hidx : b.item_index with _ | jv
            · simp [hidx]
            · simp only [hidx]
              by_cases hemp : result.files.isEmpty
              · simp [hemp]
              · simp only [hemp, if_false]
                cases jv with
                | jint n => right; simp [select_item_events]
                | jnum q => right; simp [select_item_events]
                | jstr s =>
                  cases hpi : pyIntOfString s with
                  | some n => right; simp [hpi, select_item_events]
                  | none => simp [hpi]

/-- Claim C4 as amended: the media-info endpoint performs no rate-limit
check at all; the download endpoint performs the rate-limit check first
(every non-OPTIONS answer trace begins with it) and a rejected client gets
the 429 rate-limited error with no extraction performed. -/
theorem C4_rate_limit_placement_amended
    (iOpt : Bool) (iuv : String → Bool) (ibody : Option (Option String))
    (ieng : Except String Unit) (now : Nat) (tracker : List Nat)
    (uv : String → Bool) (body : Option ReqBody)
    (eng : Except String DLResult) :
    Ev.rateCheck ∉ (get_media_info_route iOpt iuv ibody ieng).1 ∧
    (download_media_route false now tracker uv body eng).events.head? =
      some Ev.rateCheck ∧
    ((check_rate_limit now tracker).1 = false →
      (download_media_route false now tracker uv body eng).status = 429 ∧
      Ev.extract ∉ (download_media_route false now tracker uv body eng).events) := by
  refine ⟨?_, ?_, ?_⟩
  · unfold get_media_info_route
    by_cases hio : iOpt = true
    · simp [hio]
    · simp only [hio, if_neg, not_false_iff, if_false, Bool.not_eq_true] at *
      rcases ibody with _ | ob
      · simp
      · rcases ob with _ | url
        · simp [hio]
        · simp only [hio, Bool.false_eq_true, if_false]
          by_cases huv : iuv url = false
          · simp [huv]
          · simp only [huv, if_false]
            cases ieng with
            | error msg => simp
            | ok u => simp
  · rcases download_route_events now tracker uv body eng with h | h <;>
      rw [h] <;> rfl
  · intro hrl
    unfold download_media_route
    simp [hrl]

/-- Witness for the amended C4 at concrete inputs (the client is already at
the limit, so the download request is rejected before extraction). -/
theorem C4_rate_limit_placement_amended_witness :
    Ev.rateCheck ∉ (get_media_info_route false (fun _ => true)
      (some (some "u")) (.ok ())).1 ∧
    (download_media_route false 0 (List.replicate 50 0) (fun _ => true)
      (some ⟨some "u", none⟩) (.error "boom")).events.head? =
      some Ev.rateCheck ∧
    (download_media_route false 0 (List.replicate 50 0) (fun _ => true)
      (some ⟨some "u", none⟩) (.error "boom")).status = 429 ∧
    Ev.extract ∉ (download_media_route false 0 (List.replicate 50 0)
      (fun _ => true) (some ⟨some "u", none⟩) (.error "boom")).events :=
  ⟨(C4_rate_limit_placement_amended false (fun _ => true) (some (some "u"))
      (.ok ()) 0 (List.replicate 50 0) (fun _ => true)
      (some ⟨some "u", none⟩) (.error "boom")).1,
   (C4_rate_limit_placement_amended false (fun _ => true) (some (some "u"))
      (.ok ()) 0 (List.replicate 50 0) (fun _ => true)
      (some ⟨some "u", none⟩) (.error "boom")).2.1,
   (C4_rate_limit_placement_amended false (fun _ => true) (some (some "u"))
      (.ok ()) 0 (List.replicate 50 0) (fun _ => true)
      (some ⟨some "u", none⟩) (.error "boom")).2.2 (by decide)⟩

/-- Counterexample to claim C10: the non-integer `item_index` 5/2 (a JSON
float 2.5) does not make the request fail with the generic 500 error;
Python `int()` truncates it to 2, which is in range for three delivered
files, so a single file (the third) is returned with status 200. -/
theorem C10_counterexample :
    (download_media_route false 0 [] (fun _ => true)
        (some ⟨some "u", some (.jnum (mkRat 5 2))⟩)
        (.ok ⟨"multiple",
          [⟨"a", 1, "image", "/download/a", "a"⟩,
           ⟨"b", 1, "image", "/download/b", "b"⟩,
           ⟨"c", 1, "image", "/download/c", "c"⟩], 3⟩)).status = 200 ∧
    (download_media_route false 0 [] (fun _ => true)
        (some ⟨some "u", some (.jnum (mkRat 5 2))⟩)
        (.ok ⟨"multiple",
          [⟨"a", 1, "image", "/download/a", "a"⟩,
           ⟨"b", 1, "image", "/download/b", "b"⟩,
           ⟨"c", 1, "image", "/download/c", "c"⟩], 3⟩)).count = 1 ∧
    (download_media_route false 0 [] (fun _ => true)
        (some ⟨some "u", some (.jnum (mkRat 5 2))⟩)
        (.ok ⟨"multiple",
          [⟨"a", 1, "image", "/download/a", "a"⟩,
           ⟨"b", 1, "image", "/download/b", "b"⟩,
           ⟨"c", 1, "image", "/download/c", "c"⟩], 3⟩)).files =
      [⟨"c", 1, "image", "/download/c", "c"⟩] := by
  refine ⟨?_, ?_, ?_⟩ <;> rfl

theorem download_route_sel (now : Nat) (tracker : List Nat)
    (uv : String → Bool) (url : String) (jv : JIdx) (result : DLResult)
    (hrl : (check_rate_limit now tracker).1 = true)
    (huv : uv url = true) (hemp : result.files.isEmpty = false) :
    download_media_route false now tracker uv (some ⟨some url, some jv⟩)
        (.ok result) =
      match jv with
      | .jint n => select_item result n (check_rate_limit now tracker).2
      | .jnum q => select_item result (pyTrunc q) (check_rate_limit now tracker).2
      | .jstr s =>
        match pyIntOfString s with
        | some n => select_item result n (check_rate_limit now tracker).2
        | none =>
          ⟨[Ev.rateCheck, Ev.extract],
            (classify_download_error (int_error_msg s)).1,
            (classify_download_error (int_error_msg s)).2, [], 0,
            (check_rate_limit now tracker).2⟩ := by
  unfold download_media_route
  simp [hrl, huv, hemp]

/-- Claim C10 as amended: when the download endpoint receives an
`item_index` on which Python `int()` succeeds, the converted value selects a
single file (count 1) when it is in range `[0, number of files)` and leaves
the full file list unchanged otherwise; a fractional number is truncated
toward zero and then follows the same rule; only an `item_index` on which
`int()` raises (such as a non-numeric string, whose failure message matches
no classifier keyword) makes the request fail with the generic 500
"Download failed" error. -/
theorem C10_item_index_amended (now : Nat) (tracker : List Nat)
    (uv : String → Bool) (url : String) (result : DLResult)
    (hrl : (check_rate_limit now tracker).1 = true)
    (huv : uv url = true) (hne : result.files ≠ []) :
    (∀ n : Int, 0 ≤ n → n < (result.files.length : Int) →
      download_media_route false now tracker uv
          (some ⟨some url, some (.jint n)⟩) (.ok result) =
        ⟨[Ev.rateCheck, Ev.extract], 200, "",
          [result.files.getD n.toNat emptyResultFile], 1,
          (check_rate_limit now tracker).2⟩) ∧
    (∀ n : Int, ¬ (0 ≤ n ∧ n < (result.files.length : Int)) →
      download_media_route false now tracker uv
          (some ⟨some url, some (.jint n)⟩) (.ok result) =
        ⟨[Ev.rateCheck, Ev.extract], 200, "", result.files, result.count,
          (check_rate_limit now tracker).2⟩) ∧
    (∀ q : ℚ,
      download_media_route false now tracker uv
          (some ⟨some url, some (.jnum q)⟩) (.ok result) =
        download_media_route false now tracker uv
          (some ⟨some url, some (.jint (pyTrunc q))⟩) (.ok result)) ∧
    (∀ s : String, pyIntOfString s = none →
      classify_download_error (int_error_msg s) = (500, "Download failed") →
      (download_media_route false now tracker uv
          (some ⟨some url, some (.jstr s)⟩) (.ok result)).status = 500 ∧
      (download_media_route false now tracker uv
          (some ⟨some url, some (.jstr s)⟩) (.ok result)).message =
        "Download failed") := by
  have hemp : result.files.isEmpty = false := by
    rcases h : result.files with _ | ⟨a, l⟩
    · exact absurd h hne
    · rfl
  refine ⟨?_, ?_, ?_, ?_⟩
  · intro n h0 hlt
    rw [download_route_sel now tracker uv url (.jint n) result hrl huv hemp]
    show select_item result n (check_rate_limit now tracker).2 = _
    unfold select_item
    rw [if_pos ⟨h0, hlt⟩]
  · intro n hout
    rw [download_route_sel now tracker uv url (.jint n) result hrl huv hemp]
    show select_item result n (check_rate_limit now tracker).2 = _
    unfold select_item
    rw [if_neg hout]
  · intro q
    rw [download_route_sel now tracker uv url (.jnum q) result hrl huv hemp,
      download_route_sel now tracker uv url (.jint (pyTrunc q)) result hrl huv hemp]
  · intro s hpi hcl
    have hval : download_media_route false now tracker uv
        (some ⟨some url, some (.jstr s)⟩) (.ok result) =
        ⟨[Ev.rateCheck, Ev.extract], 500, "Download failed", [], 0,
          (check_rate_limit now tracker).2⟩ := by
      rw [download_route_sel now tracker uv url (.jstr s) result hrl huv hemp]
      simp only [hpi, hcl]
    rw [hval]
    exact ⟨rfl, rfl⟩

/-- Witness for the amended C10 at concrete inputs: the in-range index 1 of
two files selects the second file with count 1, and the non-numeric string
"abc" hits the generic 500 "Download failed" path. -/
theorem C10_item_index_amended_witness :
    download_media_route false 0 [] (fun _ => true)
        (some ⟨some "u", some (.jint 1)⟩)
        (.ok ⟨"multiple",
          [⟨"a", 1, "image", "/download/a", "a"⟩,
           ⟨"b", 1, "image", "/download/b", "b"⟩], 2⟩) =
      ⟨[Ev.rateCheck, Ev.extract], 200, "",
        [(⟨"multiple",
          [⟨"a", 1, "image", "/download/a", "a"⟩,
           ⟨"b", 1, "image", "/download/b", "b"⟩], 2⟩ : DLResult).files.getD
            (1 : Int).toNat emptyResultFile], 1,
        (check_rate_limit 0 []).2⟩ ∧
    (download_media_route false 0 [] (fun _ => true)
        (some ⟨some "u", some (.jstr "abc")⟩)
        (.ok ⟨"multiple",
          [⟨"a", 1, "image", "/download/a", "a"⟩,
           ⟨"b", 1, "image", "/download/b", "b"⟩], 2⟩)).status = 500 ∧
    (download_media_route false 0 [] (fun _ => true)
        (some ⟨some "u", some (.jstr "abc")⟩)
        (.ok ⟨"multiple",
          [⟨"a", 1, "image", "/download/a", "a"⟩,
           ⟨"b", 1, "image", "/download/b", "b"⟩], 2⟩)).message =
      "Download failed" :=
  ⟨(C10_item_index_amended 0 [] (fun _ => true) "u"
      ⟨"multiple",
        [⟨"a", 1, "image", "/download/a", "a"⟩,
         ⟨"b", 1, "image", "/download/b", "b"⟩], 2⟩
      (by decide) (by decide) (by decide)).1 1 (by decide) (by decide),
   ((C10_item_index_amended 0 [] (fun _ => true) "u"
      ⟨"multiple",
        [⟨"a", 1, "image", "/download/a", "a"⟩,
         ⟨"b", 1, "image", "/download/b", "b"⟩], 2⟩
      (by decide) (by decide) (by decide)).2.2.2 "abc" (by decide)
      (by decide)).1,
   ((C10_item_index_amended 0 [] (fun _ => true) "u"
      ⟨"multiple",
        [⟨"a", 1, "image", "/download/a", "a"⟩,
         ⟨"b", 1, "image", "/download/b", "b"⟩], 2⟩
      (by decide) (by decide) (by decide)).2.2.2 "abc" (by decide)
      (by decide)).2⟩


/-! ## Stored-file lookup (src/app.py, `download_file`, lines 745-766) -/

/-- `filename.rsplit('_', 1)[0] if '_' in filename else filename`
(line 754): everything before the last underscore, or the whole name. -/
def rsplit_base (s : String) : String :=
  if s.toList.contains '_' then
    match lastIndexOfChar '_' s.toList with
    | some i => String.mk (s.toList.take i)
    | none => s
  else s

/-- `download_file` (lines 745-766).  `store` is the download-folder listing
in `os.listdir` order; `uid` is the fresh unique id consumed by the
handler's own `sanitize_filename` call (line 749).  `.ok` carries the name
of the served stored file, `.error` the HTTP status. -/
def download_file_route (store : List String) (filename uid : String) :
    Except Nat String :=
  let safe := sanitize_filename filename uid
  if safe ∈ store then .ok safe
  else
    match store.filter (fun f => pyStartswith f (rsplit_base filename)) with
    | [] => .error 404
    | m :: _ => .ok m

theorem rsplit_base_isPrefix (s : String) :
    pyStartswith s (rsplit_base s) = true := by
  unfold rsplit_base pyStartswith
  by_cases h : s.toList.contains '_'
  · simp only [h, if_pos]
    cases hli : lastIndexOfChar '_' s.toList with
    | none => exact List.isPrefixOf_iff_prefix.mpr (List.prefix_refl _)
    | some i =>
      show (String.mk (s.toList.take i)).toList.isPrefixOf s.toList = true
      exact List.isPrefixOf_iff_prefix.mpr (List.take_prefix i s.toList)
  · simp only [h, if_neg, not_false_iff]
    exact List.isPrefixOf_iff_prefix.mpr (List.prefix_refl _)

/-- Counterexample to claim C7: requesting an identifier exactly equal to a
stored file's name does not serve that file.  With two stored files sharing
the prefix before their unique suffixes, requesting the second one serves
the first: the "exact match" of line 749-752 tests a re-sanitized name
carrying a fresh unique id, which is absent, and the prefix fallback then
returns the first directory entry with the stripped prefix. -/
theorem C7_counterexample :
    download_file_route ["video_aaaa.mp4", "video_bbbb.mp4"]
        "video_bbbb.mp4" "zzzzzzzz" = .ok "video_aaaa.mp4" ∧
    (Except.ok "video_aaaa.mp4" : Except Nat String) ≠ .ok "video_bbbb.mp4" := by
  refine ⟨by rfl, ?_⟩
  intro h
  have h2 : "video_aaaa.mp4" = "video_bbbb.mp4" := by injection h
  exact absurd h2 (by decide)

/-- Claim C7 as amended: the lookup first tests existence of a re-sanitized
name (the request with a fresh unique suffix appended), not of the request
itself; when that name is absent it strips the request at its last
underscore and serves the first stored entry starting with that base,
returning 404 only when no entry matches; in particular a request exactly
equal to a stored name is answered through the prefix fallback, with the
first stored entry sharing its base prefix, which need not be the requested
file. -/
theorem C7_lookup_amended (store : List String) (filename uid : String)
    (hmiss : sanitize_filename filename uid ∉ store) :
    (store.filter (fun f => pyStartswith f (rsplit_base filename)) = [] →
      download_file_route store filename uid = .error 404) ∧
    (∀ m rest,
      store.filter (fun f => pyStartswith f (rsplit_base filename)) = m :: rest →
      download_file_route store filename uid = .ok m) ∧
    (filename ∈ store →
      ∃ m rest,
        store.filter (fun f => pyStartswith f (rsplit_base filename)) = m :: rest ∧
        download_file_route store filename uid = .ok m) := by
  refine ⟨?_, ?_, ?_⟩
  · intro hnil
    unfold download_file_route
    rw [if_neg hmiss, hnil]
  · intro m rest hcons
    unfold download_file_route
    rw [if_neg hmiss, hcons]
  · intro hmem
    have hself : filename ∈
        store.filter (fun f => pyStartswith f (rsplit_base filename)) :=
      List.mem_filter.mpr ⟨hmem, rsplit_base_isPrefix filename⟩
    cases hcons : store.filter (fun f => pyStartswith f (rsplit_base filename)) with
    | nil => rw [hcons] at hself; simp at hself
    | cons m rest =>
      refine ⟨m, rest, rfl, ?_⟩
      unfold download_file_route
      rw [if_neg hmiss, hcons]

/-- Witness for the amended C7: a one-entry store looked up by its exact
stored name is served through the prefix fallback. -/
theorem C7_lookup_amended_witness :
    download_file_route ["video_aaaa.mp4"] "video_aaaa.mp4" "zzzzzzzz" =
      .ok "video_aaaa.mp4" :=
  (C7_lookup_amended ["video_aaaa.mp4"] "video_aaaa.mp4" "zzzzzzzz"
    (by decide)).2.1 "video_aaaa.mp4" [] (by decide)

/-! ## Stats and logs endpoints (src/app.py, `get_stats` lines 768-787,
`get_logs` lines 789-806) -/

/-- `DOWNLOAD_FOLDER = 'downloads'` (line 20). -/
def DOWNLOAD_FOLDER : String := "downloads"

/-- `log_file` path (line 71). -/
def log_file : String := "logs/igdl.log"

/-- The JSON answer of `get_stats`: HTTP code, `status` field, `message`
field (empty on success), file count and total size in bytes.  `listing` is
the outcome of reading the download folder; on an exception the handler
returns `str(e)` as the message (line 787).  The division by 1024*1024 and
2-digit rounding of the success payload are not modelled; no claim uses
them. -/
def get_stats_route (listing : Except String (List (String × Nat))) :
    Nat × String × String :=
  match listing with
  | .error e => (500, "error", e)
  | .ok _ => (200, "ok", "")

/-- The JSON answer of `get_logs` (lines 789-806): 404 when the log file is
missing, `str(e)` as message on an exception (line 806). -/
def get_logs_route (logExists : Bool) (content : Except String (List String)) :
    Nat × String × String :=
  if logExists = false then (404, "error", "No logs available")
  else
    match content with
    | .error e => (500, "error", e)
    | .ok _ => (200, "ok", "")

/-- Counterexample to claim C8: the stats endpoint returns the raw exception
text as the error message, so the error produced when the download folder is
missing exposes the internal filesystem path `downloads` in the response
body. -/
theorem C8_counterexample :
    (get_stats_route (.error ("[Errno 2] No such file or directory: " ++
        squote ++ "downloads" ++ squote))).2.2 =
      "[Errno 2] No such file or directory: " ++ squote ++ "downloads" ++
        squote ∧
    pyIn DOWNLOAD_FOLDER
      (get_stats_route (.error ("[Errno 2] No such file or directory: " ++
        squote ++ "downloads" ++ squote))).2.2 = true := by
  exact ⟨rfl, by decide⟩

/-- Claim C8 as amended: every error answer is a structured
`{status, message}` object and the media endpoints draw their messages from
a fixed generic list, but the stats and logs endpoints echo the raw
exception text `str(e)`, which may contain internal filesystem paths. -/
theorem C8_error_responses_amended (e msg : String) :
    get_stats_route (.error e) = (500, "error", e) ∧
    get_logs_route true (.error e) = (500, "error", e) ∧
    (classify_info_error msg).2 ∈
      ["This content is private or requires authentication",
       "Media not found",
       "Rate limit exceeded. Please try again later.",
       "This post format is not supported. Try a different post.",
       "Failed to fetch media information"] ∧
    (classify_download_error msg).2 ∈
      ["This content is private",
       "Media not found",
       "Request timed out",
       "This post format is not supported",
       "Rate limit exceeded. Please try again later.",
       "Download failed"] := by
  refine ⟨rfl, rfl, ?_, ?_⟩
  · unfold classify_info_error
    split
    · simp
    · split
      · simp
      · split
        · simp
        · split <;> simp
  · unfold classify_download_error
    split
    · simp
    · split
      · simp
      · split
        · simp
        · split
          · simp
          · split <;> simp
